import Mathlib

/-!
# Remote sessions of git2go (`remote.go`)

A shallow embedding of `src/remote.go`.  The Go wrapper is a thin layer over the
native engine (libgit2), so the embedding is state passing over a `Runtime`
record holding what the wrapper can observe or change:

* the trace of native entry points it has called, each stamped with the
  OS-thread pin depth at the time of the call,
* the engine's last-error slot,
* the finalizers registered with `runtime.SetFinalizer`,
* the nesting depth of `runtime.LockOSThread`,
* the next free Go heap address.

What the engine answers to a call is not computed by the wrapper; every native
call takes the engine's answer as an explicit argument (`EngineReply` and
friends), so each theorem quantifies over every answer the engine can give.
Byte strings (Go `string`, `[]byte`, C `char*` buffers) are lists of byte
values.
-/

namespace Git

/-! ## Values crossing the foreign boundary -/

/-- Go `string` and `[]byte`: a sequence of byte values. -/
abbrev Bytes := List Nat

/-- A C `char*` buffer: the bytes stored from the pointer onwards. -/
abbrev CBuf := List Nat

/-- `C.GoString`: the bytes of the buffer before the first NUL. -/
def GoString (str : CBuf) : Bytes :=
  str.takeWhile (fun b => b != 0)

/-- `C.GoBytes`: a fresh copy of the first `length` bytes of the buffer.
`none` when no copy is produced: a negative `length` makes cgo panic, and a
`length` beyond the bytes of the buffer makes the read leave the buffer. -/
def GoBytes (str : CBuf) (length : Int) : Option Bytes :=
  if 0 ≤ length ∧ length ≤ str.length then some (str.take length.toNat) else none

/-- `C.CString`: the bytes of the Go string followed by a NUL. -/
def CString (s : Bytes) : CBuf :=
  s ++ [0]

/-- Native `git_oid`: the raw hash bytes. -/
structure git_oid where
  id : List Nat
deriving DecidableEq

/-- Go `Oid`: the hash bytes held by value. -/
structure Oid where
  bytes : List Nat
deriving DecidableEq

/-- The zero value of `Oid` (`var goa Oid`): `GIT_OID_RAWSZ = 20` zero bytes. -/
def Oid.zero : Oid :=
  { bytes := List.replicate 20 0 }

/-- Modelled from the spec: `CopyOid` is defined outside `remote.go`.  The spec
says an Oid is "copied by value, never aliased across the foreign boundary
(every crossing yields a fresh local copy). Equality is byte-wise": the
destination receives the bytes of the native oid. -/
def CopyOid (_dst : Oid) (src : git_oid) : Oid :=
  { bytes := src.id }

/-- Go error value produced by `LastError`: code and message. -/
structure GitError where
  Message : Bytes
  Code : Int
deriving DecidableEq

/-! ## The runtime and the engine as seen from the wrapper -/

/-- Native entry points called by `remote.go`, with their arguments;
`git_cred_free ptr` is the call `ptr->free(ptr)` through the release routine
stored in the credential, `giterr_last` the read of the last-error slot. -/
inductive NativeCall where
  | git_remote_connect (ptr : Nat) (direction : Int)
  | git_remote_save (ptr : Nat)
  | _go_git_remote_ls (ptr : Nat)
  | git_remote_download (ptr : Nat)
  | git_remote_fetch (ptr : Nat)
  | git_remote_free (ptr : Nat)
  | git_remote_name (ptr : Nat)
  | git_remote_url (ptr : Nat)
  | _go_git_remote_set_callbacks (ptr : Nat) (payload : Nat)
  | git_cred_userpass_plaintext_new (user pass : CBuf)
  | git_cred_ssh_keyfile_passphrase_new (user pub priv pass : CBuf)
  | git_cred_free (ptr : Nat)
  | giterr_last
deriving DecidableEq

/-- One entry of the native trace: the call and the pin depth it ran under. -/
structure Event where
  call : NativeCall
  pinDepth : Nat
deriving DecidableEq

/-- Functions that `runtime.SetFinalizer` is given in `remote.go`. -/
inductive Finalizer where
  | RemoteFree
  | CredentialFree
deriving DecidableEq

/-- State observable by the wrapper. -/
structure Runtime where
  calls : List Event
  lastError : GitError
  finalizers : List (Nat × Finalizer)
  lockDepth : Nat
  nextAddr : Nat
deriving DecidableEq

/-- The engine's answer to a status-returning call: the status and the content
of its last-error slot once the call has returned. -/
structure EngineReply where
  status : Int
  lastError : GitError
deriving DecidableEq

/-- Record a native call in the trace under the current pin depth. -/
def Runtime.record (w : Runtime) (c : NativeCall) : Runtime :=
  { w with calls := w.calls ++ [{ call := c, pinDepth := w.lockDepth }] }

/-- A status-returning native call: recorded, then answered by the engine. -/
def engineCall (c : NativeCall) (reply : EngineReply) (w : Runtime) : Int × Runtime :=
  (reply.status, { w.record c with lastError := reply.lastError })

/-- `runtime.LockOSThread`: calls nest. -/
def LockOSThread (w : Runtime) : Runtime :=
  { w with lockDepth := w.lockDepth + 1 }

/-- `runtime.UnlockOSThread`: undoes one `LockOSThread`; no-op when not locked. -/
def UnlockOSThread (w : Runtime) : Runtime :=
  { w with lockDepth := w.lockDepth - 1 }

/-- `runtime.SetFinalizer(obj, f)`; `none` is `SetFinalizer(obj, nil)`, which
clears the registration of the object at `addr`. -/
def SetFinalizer (addr : Nat) (f : Option Finalizer) (w : Runtime) : Runtime :=
  let rest := w.finalizers.filter (fun e => e.1 != addr)
  match f with
  | none => { w with finalizers := rest }
  | some g => { w with finalizers := (addr, g) :: rest }

/-- Modelled from the spec: `LastError` is defined outside `remote.go`.  The
spec says the wrapper must "consult the engine's last-error state" and
"surface a structured error (code + message)": it reads the engine's
last-error slot (one native call) and returns it as a non-nil error. -/
def LastError (w : Runtime) : Option GitError × Runtime :=
  (some w.lastError, w.record NativeCall.giterr_last)

/-! ## The session type and its callback slots -/

/-- Go `TransferProgress`. -/
structure TransferProgress where
  TotalObjects : Nat
  IndexedObjects : Nat
  ReceivedObjects : Nat
  ReceivedBytes : Nat
deriving DecidableEq

/-- `ProgressCb`: a caller handler, with its effects on the caller state `σ`. -/
abbrev ProgressCb (σ : Type) := Bytes → σ → Int × σ

/-- `TransferProgressCb`. -/
abbrev TransferProgressCb (σ : Type) := TransferProgress → σ → Int × σ

/-- `UpdateTipsCb`. -/
abbrev UpdateTipsCb (σ : Type) := Bytes → Oid → Oid → σ → Int × σ

/-- Go `Remote`, reached through a `*Remote`: `addr` is the address of the Go
object, a nil callback slot is `none`, `ptr` is the native handle. -/
structure Remote (σ : Type) where
  addr : Nat
  Name : Bytes
  Url : Bytes
  Progress : Option (ProgressCb σ)
  TransferProgress : Option (TransferProgressCb σ)
  UpdateTips : Option (UpdateTipsCb σ)
  ptr : Nat

/-! ## Download and Fetch -/

/-- `Remote.Download` (remote.go 104-111). -/
def Remote.Download {σ : Type} (r : Remote σ) (reply : EngineReply) (w : Runtime) :
    Option GitError × Runtime :=
  let (ret, w) := engineCall (NativeCall.git_remote_download r.ptr) reply w
  if ret < 0 then
    let (_, w) := LastError w
    (none, w)
  else
    (none, w)

/-- `Remote.Fetch` (remote.go 113-120). -/
def Remote.Fetch {σ : Type} (r : Remote σ) (reply : EngineReply) (w : Runtime) :
    Option GitError × Runtime :=
  let (ret, w) := engineCall (NativeCall.git_remote_fetch r.ptr) reply w
  if ret < 0 then
    let (_, w) := LastError w
    (none, w)
  else
    (none, w)

/-! ## Connect and Save -/

/-- The conversion `C.git_direction(direction)`: the Go `int` is narrowed to the
C enum `git_direction` (values 0 and 1), which cgo represents as an unsigned
32-bit integer. -/
def git_direction (direction : Int) : Int :=
  direction % 2 ^ 32

/-- `Remote.Connect` (remote.go 49-59).  The deferred `UnlockOSThread` runs
after the result has been computed, on both return paths. -/
def Remote.Connect {σ : Type} (r : Remote σ) (direction : Int) (reply : EngineReply)
    (w : Runtime) : Option GitError × Runtime :=
  let w := LockOSThread w
  let (ret, w) := engineCall (NativeCall.git_remote_connect r.ptr (git_direction direction)) reply w
  if ret < 0 then
    let (err, w) := LastError w
    (err, UnlockOSThread w)
  else
    (none, UnlockOSThread w)

/-- `Remote.Save` (remote.go 81-91). -/
def Remote.Save {σ : Type} (r : Remote σ) (reply : EngineReply) (w : Runtime) :
    Option GitError × Runtime :=
  let w := LockOSThread w
  let (ret, w) := engineCall (NativeCall.git_remote_save r.ptr) reply w
  if ret < 0 then
    let (err, w) := LastError w
    (err, UnlockOSThread w)
  else
    (none, UnlockOSThread w)

/-! ## Listing -/

/-- Native `git_remote_head`; `local_` is the C field `local`. -/
structure git_remote_head where
  local_ : Int
  oid : git_oid
  loid : git_oid
  name : CBuf
deriving DecidableEq

/-- Go `RemoteHead`. -/
structure RemoteHead where
  Local : Bool
  Oid : Git.Oid
  Loid : Git.Oid
  Name : Bytes
deriving DecidableEq

/-- `newRemoteHeadFromC` (remote.go 217-227). -/
def newRemoteHeadFromC (ptr : git_remote_head) : RemoteHead :=
  let head : RemoteHead :=
    { Local := ptr.local_ != 0, Name := GoString ptr.name, Oid := Oid.zero, Loid := Oid.zero }
  let head := { head with Oid := CopyOid head.Oid ptr.oid }
  let head := { head with Loid := CopyOid head.Loid ptr.loid }
  head

/-- A Go slice that may be nil: `none` is the nil slice. -/
abbrev Slice (α : Type) := Option (List α)

/-- Go `append(s, x)`: appending to the nil slice allocates. -/
def Slice.append {α : Type} (s : Slice α) (x : α) : Slice α :=
  match s with
  | none => some [x]
  | some l => some (l ++ [x])

/-- Go `len(s)`; the nil slice has length 0. -/
def Slice.len {α : Type} (s : Slice α) : Nat :=
  match s with
  | none => 0
  | some l => l.length

/-- The elements of a slice in index order. -/
def Slice.elems {α : Type} (s : Slice α) : List α :=
  match s with
  | none => []
  | some l => l

/-- `headlistData` (remote.go 155-157); its zero value has a nil slice. -/
structure headlistData where
  slice : Slice RemoteHead
deriving DecidableEq

/-- `remoteHeadlistCb` (remote.go 160-167). -/
def remoteHeadlistCb (rhead : git_remote_head) (data : headlistData) : Int × headlistData :=
  let head := newRemoteHeadFromC rhead
  let data := { data with slice := data.slice.append head }
  (0, data)

/-- The engine's answer to one listing call: the heads it passes to the
per-head callback, in invocation order, the status it returns and the content
of its last-error slot afterwards. -/
structure LsReply where
  heads : List git_remote_head
  status : Int
  lastError : GitError
deriving DecidableEq

/-- Modelled from the spec: `_go_git_remote_ls` is a C shim defined outside
`remote.go`.  The spec says the listing call "triggers a listing round-trip;
the engine invokes a per-head callback synchronously during this call": the
callback `remoteHeadlistCb` runs on the payload once per head of the reply, in
order, and then the engine's status is returned. -/
def _go_git_remote_ls (ptr : Nat) (payload : headlistData) (reply : LsReply) (w : Runtime) :
    Int × headlistData × Runtime :=
  let w := w.record (NativeCall._go_git_remote_ls ptr)
  let payload := reply.heads.foldl (fun d h => (remoteHeadlistCb h d).2) payload
  (reply.status, payload, { w with lastError := reply.lastError })

/-- `Remote.Ls` (remote.go 93-102). -/
def Remote.Ls {σ : Type} (r : Remote σ) (reply : LsReply) (w : Runtime) :
    (Slice RemoteHead × Option GitError) × Runtime :=
  let data : headlistData := { slice := none }
  let (ret, data, w) := _go_git_remote_ls r.ptr data reply w
  if ret < 0 then
    let (err, w) := LastError w
    ((none, err), w)
  else
    ((data.slice, none), w)

/-! ## Transfer progress -/

/-- Native `git_transfer_progress`: three `unsigned int` counters and a
`size_t` byte count, as unbounded naturals (see `git_transfer_progress.wf`). -/
structure git_transfer_progress where
  total_objects : Nat
  indexed_objects : Nat
  received_objects : Nat
  received_bytes : Nat
deriving DecidableEq

/-- The values a native record can hold: 32-bit counters, and a `size_t` of at
most 64 bits. -/
def git_transfer_progress.wf (p : git_transfer_progress) : Prop :=
  p.total_objects < 2 ^ 32 ∧ p.indexed_objects < 2 ^ 32 ∧ p.received_objects < 2 ^ 32 ∧
    p.received_bytes < 2 ^ 64

instance (p : git_transfer_progress) : Decidable p.wf := by
  unfold git_transfer_progress.wf
  infer_instance

/-- Go conversion `uint(x)`; `uintBits` is the width of `uint` (32 or 64). -/
def toUint (uintBits : Nat) (x : Nat) : Nat :=
  x % 2 ^ uintBits

/-- Go conversion `uint64(x)`. -/
def toUint64 (x : Nat) : Nat :=
  x % 2 ^ 64

/-- `newTransferProgressFromC` (remote.go 198-205). -/
def newTransferProgressFromC (uintBits : Nat) (ptr : git_transfer_progress) : TransferProgress :=
  { TotalObjects := toUint uintBits ptr.total_objects
    IndexedObjects := toUint uintBits ptr.indexed_objects
    ReceivedObjects := toUint uintBits ptr.received_objects
    ReceivedBytes := toUint64 ptr.received_bytes }

/-! ## Callback trampolines -/

/-- `remoteProgress` (remote.go 123-130); `remote` is the session the opaque
payload pointer resolves to, `s` the caller state the handler acts on.  The
result is `none` when `C.GoBytes` produces no copy, in which case the handler
is not reached. -/
def remoteProgress {σ : Type} (str : CBuf) (length : Int) (remote : Remote σ) (s : σ) :
    Option (Int × σ) :=
  match remote.Progress with
  | some handler =>
    match GoBytes str length with
    | some text => some (handler text s)
    | none => none
  | none => some (0, s)

/-- `remoteTransferProgress` (remote.go 133-140). -/
def remoteTransferProgress {σ : Type} (uintBits : Nat) (ptr : git_transfer_progress)
    (remote : Remote σ) (s : σ) : Int × σ :=
  match remote.TransferProgress with
  | some handler => handler (newTransferProgressFromC uintBits ptr) s
  | none => (0, s)

/-- `remoteUpdateTips` (remote.go 143-153). -/
def remoteUpdateTips {σ : Type} (str : CBuf) (a b : git_oid) (remote : Remote σ) (s : σ) :
    Int × σ :=
  match remote.UpdateTips with
  | some handler =>
    let goa := Oid.zero
    let gob := Oid.zero
    let goa := CopyOid goa a
    let gob := CopyOid gob b
    handler (GoString str) goa gob s
  | none => (0, s)

/-! ## Construction and release of sessions -/

/-- Allocation of a Go object: a fresh heap address. -/
def alloc (w : Runtime) : Nat × Runtime :=
  (w.nextAddr, { w with nextAddr := w.nextAddr + 1 })

/-- `Remote.Free` (remote.go 169-172). -/
def Remote.Free {σ : Type} (r : Remote σ) (w : Runtime) : Runtime :=
  let w := SetFinalizer r.addr none w
  w.record (NativeCall.git_remote_free r.ptr)

/-- `newRemoteFromC` (remote.go 174-187); `name` and `url` are the C strings the
engine returns from `git_remote_name` and `git_remote_url`. -/
def newRemoteFromC {σ : Type} (ptr : Nat) (name url : CBuf) (w : Runtime) : Remote σ × Runtime :=
  let (addr, w) := alloc w
  let w := w.record (NativeCall.git_remote_name ptr)
  let w := w.record (NativeCall.git_remote_url ptr)
  let remote : Remote σ :=
    { addr := addr, ptr := ptr, Name := GoString name, Url := GoString url,
      Progress := none, TransferProgress := none, UpdateTips := none }
  let w := w.record (NativeCall._go_git_remote_set_callbacks remote.ptr remote.addr)
  let w := SetFinalizer remote.addr (some Finalizer.RemoteFree) w
  (remote, w)

/-! ## Credentials -/

/-- Native `git_cred`: its address and its `credtype` field. -/
structure git_cred where
  addr : Nat
  credtype : Int
deriving DecidableEq

/-- Go `Credential`, reached through a `*Credential` at address `addr`;
`Type_` is the Go field `Type`. -/
structure Credential where
  addr : Nat
  Type_ : Int
  ptr : git_cred
deriving DecidableEq

/-- The engine's answer to a credential constructor: the status, the last-error
slot afterwards, and the credential stored through the out-parameter (read by
the wrapper only when the status is not negative). -/
structure CredReply where
  status : Int
  lastError : GitError
  out : git_cred
deriving DecidableEq

/-- `Credential.Free` (remote.go 302-305): `c.ptr.free(c.ptr)` is the native
release routine of the credential, recorded as `git_cred_free`. -/
def Credential.Free (c : Credential) (w : Runtime) : Runtime :=
  let w := SetFinalizer c.addr none w
  w.record (NativeCall.git_cred_free c.ptr.addr)

/-- `newCredentialFromC` (remote.go 292-300). -/
def newCredentialFromC (ptr : git_cred) (w : Runtime) : Credential × Runtime :=
  let (addr, w) := alloc w
  let cred : Credential := { addr := addr, Type_ := ptr.credtype, ptr := ptr }
  let w := SetFinalizer cred.addr (some Finalizer.CredentialFree) w
  (cred, w)

/-- `NewCredentialUserpass` (remote.go 260-272).  The C copies of the strings
are released with libc `free`, which is not an engine entry point. -/
def NewCredentialUserpass (user pass : Bytes) (reply : CredReply) (w : Runtime) :
    (Option Credential × Option GitError) × Runtime :=
  let cuser := CString user
  let cpass := CString pass
  let (ret, w) :=
    engineCall (NativeCall.git_cred_userpass_plaintext_new cuser cpass)
      { status := reply.status, lastError := reply.lastError } w
  if ret < 0 then
    let (err, w) := LastError w
    ((none, err), w)
  else
    let (cred, w) := newCredentialFromC reply.out w
    ((some cred, none), w)

/-- `NewCredentialSshKeyfile` (remote.go 274-290). -/
def NewCredentialSshKeyfile (user pub priv passphrase : Bytes) (reply : CredReply)
    (w : Runtime) : (Option Credential × Option GitError) × Runtime :=
  let cuser := CString user
  let cpublic := CString pub
  let cprivate := CString priv
  let cpass := CString passphrase
  let (ret, w) :=
    engineCall (NativeCall.git_cred_ssh_keyfile_passphrase_new cuser cpublic cprivate cpass)
      { status := reply.status, lastError := reply.lastError } w
  if ret < 0 then
    let (err, w) := LastError w
    ((none, err), w)
  else
    let (cred, w) := newCredentialFromC reply.out w
    ((some cred, none), w)

/-! ## Garbage collection -/

/-- A garbage-collection pass over an unreachable `*Remote`: the runtime
removes the registered finalizer, if any, and runs it on the object. -/
def collectRemote {σ : Type} (r : Remote σ) (w : Runtime) : Runtime :=
  match w.finalizers.lookup r.addr with
  | some Finalizer.RemoteFree => Remote.Free r (SetFinalizer r.addr none w)
  | _ => w

/-- A garbage-collection pass over an unreachable `*Credential`. -/
def collectCredential (c : Credential) (w : Runtime) : Runtime :=
  match w.finalizers.lookup c.addr with
  | some Finalizer.CredentialFree => Credential.Free c (SetFinalizer c.addr none w)
  | _ => w

/-- Number of times a native call appears in the trace. -/
def callCount (c : NativeCall) (w : Runtime) : Nat :=
  (w.calls.filter (fun e => e.call = c)).length

/-! ## Sample values -/

/-- An engine error used in examples. -/
def sampleError : GitError :=
  { Message := [98, 111, 111, 109], Code := 12 }

/-- A runtime with an empty trace and no error recorded. -/
def freshRuntime : Runtime :=
  { calls := [], lastError := { Message := [], Code := 0 }, finalizers := [],
    lockDepth := 0, nextAddr := 1 }

/-- A session without handlers, at Go address 5 over native handle 40. -/
def sampleRemote : Remote Nat :=
  { addr := 5, Name := [111], Url := [117], Progress := none, TransferProgress := none,
    UpdateTips := none, ptr := 40 }

/-- Two advertised heads: `HEAD` is local, `m` is not. -/
def sampleHeads : List git_remote_head :=
  [ { local_ := 1, oid := { id := [1, 2] }, loid := { id := [3] }, name := [72, 69, 65, 68, 0] },
    { local_ := 0, oid := { id := [9] }, loid := { id := [0] }, name := [109, 0, 7] } ]

/-- A session whose three handlers append the arguments they receive to the
caller's log, one log entry per argument, and answer with a value of their own
(negative for the first two). -/
def handlerRemote : Remote (List (List Nat)) :=
  { addr := 6, Name := [111], Url := [117], ptr := 41
    Progress := some (fun text log => (-(text.length : Int), log ++ [text]))
    TransferProgress := some (fun p log =>
      (-5, log ++ [[p.TotalObjects, p.IndexedObjects, p.ReceivedObjects, p.ReceivedBytes]]))
    UpdateTips := some (fun name a b log => (name.length, log ++ [name, a.bytes, b.bytes])) }

/-- A native progress record holding the largest 32-bit and 64-bit values. -/
def fullProgress : git_transfer_progress :=
  { total_objects := 4294967295, indexed_objects := 0, received_objects := 4294967295,
    received_bytes := 18446744073709551615 }

/-- The engine creating a credential of type 1 at native address 77. -/
def sampleCredReply : CredReply :=
  { status := 0, lastError := sampleError, out := { addr := 77, credtype := 1 } }

/-- The engine refusing to create a credential. -/
def failedCredReply : CredReply :=
  { status := -1, lastError := sampleError, out := { addr := 0, credtype := 0 } }

/-- The user name "alice". -/
def alice : Bytes := [97, 108, 105, 99, 101]

/-- The password "secret". -/
def secret : Bytes := [115, 101, 99, 114, 101, 116]

/-- The credential `NewCredentialUserpass` builds from `sampleCredReply` on the
fresh runtime: the first Go object allocated, wrapping native credential 77. -/
def sampleCredential : Credential :=
  { addr := 1, Type_ := 1, ptr := { addr := 77, credtype := 1 } }

/-! ## Lemmas on listing -/

theorem Slice.elems_append {α : Type} (s : Slice α) (x : α) :
    (s.append x).elems = s.elems ++ [x] := by
  cases s <;> rfl

theorem Slice.len_eq_length {α : Type} (s : Slice α) : s.len = s.elems.length := by
  cases s <;> rfl

theorem headlist_fold_elems (heads : List git_remote_head) (d : headlistData) :
    (heads.foldl (fun d h => (remoteHeadlistCb h d).2) d).slice.elems
      = d.slice.elems ++ heads.map newRemoteHeadFromC := by
  induction heads generalizing d with
  | nil => simp
  | cons h t ih =>
    rw [List.foldl_cons, ih]
    simp [remoteHeadlistCb, Slice.elems_append]

theorem Ls_success {σ : Type} (r : Remote σ) (reply : LsReply) (w : Runtime)
    (h : 0 ≤ reply.status) :
    (r.Ls reply w).1 =
      ((reply.heads.foldl (fun d h => (remoteHeadlistCb h d).2) { slice := none }).slice, none) := by
  have h2 : ¬ reply.status < 0 := not_lt.mpr h
  simp [Remote.Ls, _go_git_remote_ls, h2]

theorem Ls_success_elems {σ : Type} (r : Remote σ) (reply : LsReply) (w : Runtime)
    (h : 0 ≤ reply.status) :
    (r.Ls reply w).1.1.elems = reply.heads.map newRemoteHeadFromC := by
  rw [Ls_success r reply w h]
  show (List.foldl (fun d h => (remoteHeadlistCb h d).2) { slice := none } reply.heads).slice.elems = _
  rw [headlist_fold_elems]
  rfl

/-! ## Theorems -/

/-- C1 (code defect): with the engine answering the download call and the fetch
call with status -1, `Remote.Download` and `Remote.Fetch` both return a nil
error, after consulting `LastError` and discarding what it returned. -/
theorem Download_Fetch_return_nil_on_negative_status :
    Remote.Download sampleRemote { status := -1, lastError := sampleError } freshRuntime
      = (none, { freshRuntime with
          calls := [⟨NativeCall.git_remote_download 40, 0⟩, ⟨NativeCall.giterr_last, 0⟩],
          lastError := sampleError })
    ∧ Remote.Fetch sampleRemote { status := -1, lastError := sampleError } freshRuntime
      = (none, { freshRuntime with
          calls := [⟨NativeCall.git_remote_fetch 40, 0⟩, ⟨NativeCall.giterr_last, 0⟩],
          lastError := sampleError }) := by
  constructor <;> rfl

/-- C2: when the native listing call returns a non-negative status, `Remote.Ls`
returns a nil error and as many entries as heads were passed to the per-head
callback, in invocation order; the k-th entry is the conversion of the k-th
head, with `Local` true iff the native flag is non-zero, `Name` the native
name, and `Oid`, `Loid` byte-wise equal to the native oid and loid. -/
theorem Ls_returns_converted_heads {σ : Type} (r : Remote σ) (reply : LsReply) (w : Runtime)
    (h : 0 ≤ reply.status) :
    (r.Ls reply w).1.2 = none
    ∧ (r.Ls reply w).1.1.len = reply.heads.length
    ∧ (r.Ls reply w).1.1.elems = reply.heads.map newRemoteHeadFromC
    ∧ ∀ (k : Nat) (hk : k < reply.heads.length),
        ∃ e, (r.Ls reply w).1.1.elems[k]? = some e
          ∧ (e.Local = true ↔ (reply.heads.get ⟨k, hk⟩).local_ ≠ 0)
          ∧ e.Name = GoString (reply.heads.get ⟨k, hk⟩).name
          ∧ e.Oid.bytes = (reply.heads.get ⟨k, hk⟩).oid.id
          ∧ e.Loid.bytes = (reply.heads.get ⟨k, hk⟩).loid.id := by
  have hel := Ls_success_elems r reply w h
  refine ⟨?_, ?_, hel, ?_⟩
  · rw [Ls_success r reply w h]
  · rw [Slice.len_eq_length, hel, List.length_map]
  · intro k hk
    refine ⟨newRemoteHeadFromC (reply.heads.get ⟨k, hk⟩), ?_, ?_, rfl, rfl, rfl⟩
    · rw [hel]
      simp [List.getElem?_map, List.getElem?_eq_getElem hk]
    · simp [newRemoteHeadFromC]

/-- Witness for C2: a successful listing of the two sample heads. -/
theorem Ls_returns_converted_heads_witness :
    (0 : Int) ≤ 0
    ∧ (sampleRemote.Ls { heads := sampleHeads, status := 0, lastError := sampleError }
        freshRuntime).1.1.elems
      = [ { Local := true, Oid := ⟨[1, 2]⟩, Loid := ⟨[3]⟩, Name := [72, 69, 65, 68] },
          { Local := false, Oid := ⟨[9]⟩, Loid := ⟨[0]⟩, Name := [109] } ] :=
  ⟨le_refl 0,
    (Ls_returns_converted_heads sampleRemote
      { heads := sampleHeads, status := 0, lastError := sampleError } freshRuntime
      (le_refl 0)).2.2.1.trans (by decide)⟩

/-- C3: when the native listing call returns a negative status, `Remote.Ls`
returns the nil slice together with the non-nil error read from the engine,
although the accumulator filled by the callback during that call holds one
entry per head the engine had passed before failing. -/
theorem Ls_failure_returns_nil_slice {σ : Type} (r : Remote σ) (reply : LsReply) (w : Runtime)
    (h : reply.status < 0) :
    (r.Ls reply w).1.1 = none
    ∧ (r.Ls reply w).1.2 = some reply.lastError
    ∧ (r.Ls reply w).1.2 ≠ none
    ∧ (_go_git_remote_ls r.ptr { slice := none } reply w).2.1.slice.len = reply.heads.length := by
  have hacc : (_go_git_remote_ls r.ptr { slice := none } reply w).2.1.slice.elems
      = reply.heads.map newRemoteHeadFromC := by
    show (List.foldl (fun d h => (remoteHeadlistCb h d).2) { slice := none }
      reply.heads).slice.elems = _
    rw [headlist_fold_elems]
    rfl
  refine ⟨?_, ?_, ?_, ?_⟩
  · simp [Remote.Ls, _go_git_remote_ls, h]
  · simp [Remote.Ls, _go_git_remote_ls, LastError, Runtime.record, h]
  · simp [Remote.Ls, _go_git_remote_ls, LastError, h]
  · rw [Slice.len_eq_length, hacc, List.length_map]

/-- Witness for C3: two heads were accumulated before the engine failed. -/
theorem Ls_failure_returns_nil_slice_witness :
    (-1 : Int) < 0
    ∧ (sampleRemote.Ls { heads := sampleHeads, status := -1, lastError := sampleError }
        freshRuntime).1 = (none, some sampleError)
    ∧ (_go_git_remote_ls sampleRemote.ptr { slice := none }
        { heads := sampleHeads, status := -1, lastError := sampleError }
        freshRuntime).2.1.slice.len = 2 :=
  ⟨by decide,
    Prod.ext
      (Ls_failure_returns_nil_slice sampleRemote
        { heads := sampleHeads, status := -1, lastError := sampleError } freshRuntime
        (by decide)).1
      (Ls_failure_returns_nil_slice sampleRemote
        { heads := sampleHeads, status := -1, lastError := sampleError } freshRuntime
        (by decide)).2.1,
    (Ls_failure_returns_nil_slice sampleRemote
      { heads := sampleHeads, status := -1, lastError := sampleError } freshRuntime
      (by decide)).2.2.2⟩

/-- C8: two consecutive successful calls to `Remote.Ls` that the engine answers
with the same heads return equal sequences; the second result has the length
of the first and holds exactly the conversions of the heads of the second
call, nothing carried over from the first. -/
theorem Ls_twice_same_result {σ : Type} (r : Remote σ) (reply1 reply2 : LsReply) (w : Runtime)
    (h1 : 0 ≤ reply1.status) (h2 : 0 ≤ reply2.status) (hh : reply1.heads = reply2.heads) :
    (r.Ls reply2 (r.Ls reply1 w).2).1.1 = (r.Ls reply1 w).1.1
    ∧ (r.Ls reply2 (r.Ls reply1 w).2).1.1.len = (r.Ls reply1 w).1.1.len
    ∧ (r.Ls reply2 (r.Ls reply1 w).2).1.1.elems = reply2.heads.map newRemoteHeadFromC
    ∧ (r.Ls reply2 (r.Ls reply1 w).2).1.2 = none := by
  have e1 := Ls_success r reply1 w h1
  have e2 := Ls_success r reply2 (r.Ls reply1 w).2 h2
  have e3 := Ls_success_elems r reply2 (r.Ls reply1 w).2 h2
  refine ⟨?_, ?_, e3, ?_⟩
  · rw [e1, e2, hh]
  · rw [e1, e2, hh]
  · rw [e2]

/-- Witness for C8: the sample heads listed twice, with different statuses. -/
theorem Ls_twice_same_result_witness :
    (0 : Int) ≤ 0 ∧ (0 : Int) ≤ 3
    ∧ (sampleRemote.Ls { heads := sampleHeads, status := 3, lastError := sampleError }
        (sampleRemote.Ls { heads := sampleHeads, status := 0, lastError := sampleError }
          freshRuntime).2).1.1.len = 2 :=
  ⟨by decide, by decide,
    (Ls_twice_same_result sampleRemote
      { heads := sampleHeads, status := 0, lastError := sampleError }
      { heads := sampleHeads, status := 3, lastError := sampleError } freshRuntime
      (by decide) (by decide) rfl).2.1.trans (by decide)⟩

/-- With a handler present and a negative length, `remoteProgress` yields no
result and the handler is not applied. -/
theorem remoteProgress_negative_length {σ : Type} (str : CBuf) (length : Int)
    (remote : Remote σ) (s : σ) (h : ProgressCb σ) (hp : remote.Progress = some h)
    (hlen : length < 0) : remoteProgress str length remote s = none := by
  have hn : ¬ (0 ≤ length ∧ length ≤ (str.length : Int)) := fun hc => by omega
  simp [remoteProgress, hp, GoBytes, hn]

/-- C4: each trampoline returns 0 and leaves the caller state untouched when the
session's handler slot is empty.  When the slot holds a handler, the result is
exactly one application of that handler, whose own result is returned: to
`text` when the engine passes a buffer starting with `text` and the length of
`text`; to the snapshot whose four fields are the native counters; to the
bytes of the reference name in front of its NUL terminator together with
`Oid`s holding the bytes of the two native oids.  The outcome depends on the
session only through the slot: two sessions with the same slot value behave
alike, and a session built by `newRemoteFromC` answers 0 until a handler is
set, forwards to it once set, and answers 0 again once it is cleared. -/
theorem trampolines_forward_to_present_handler {σ : Type} (remote other : Remote σ) (s : σ)
    (str text rest name tail : CBuf) (length : Int) (uintBits : Nat)
    (ptr : git_transfer_progress) (a b : git_oid)
    (nptr : Nat) (nname nurl : CBuf) (w : Runtime)
    (hname : ∀ x ∈ name, x ≠ 0) (hbits : uintBits = 32 ∨ uintBits = 64) (hwf : ptr.wf) :
    ((remote.Progress = none → remoteProgress str length remote s = some (0, s))
      ∧ (∀ h, remote.Progress = some h →
          remoteProgress (text ++ rest) text.length remote s = some (h text s))
      ∧ (remote.TransferProgress = none →
          remoteTransferProgress uintBits ptr remote s = (0, s))
      ∧ (∀ h, remote.TransferProgress = some h →
          remoteTransferProgress uintBits ptr remote s
            = h { TotalObjects := ptr.total_objects, IndexedObjects := ptr.indexed_objects,
                  ReceivedObjects := ptr.received_objects,
                  ReceivedBytes := ptr.received_bytes } s)
      ∧ (remote.UpdateTips = none → remoteUpdateTips str a b remote s = (0, s))
      ∧ (∀ h, remote.UpdateTips = some h →
          remoteUpdateTips (name ++ 0 :: tail) a b remote s = h name ⟨a.id⟩ ⟨b.id⟩ s))
    ∧ ((other.Progress = remote.Progress →
          remoteProgress str length other s = remoteProgress str length remote s)
      ∧ (other.TransferProgress = remote.TransferProgress →
          remoteTransferProgress uintBits ptr other s
            = remoteTransferProgress uintBits ptr remote s)
      ∧ (other.UpdateTips = remote.UpdateTips →
          remoteUpdateTips str a b other s = remoteUpdateTips str a b remote s))
    ∧ (remoteProgress str length (newRemoteFromC nptr nname nurl w : Remote σ × Runtime).1 s
          = some (0, s)
      ∧ remoteTransferProgress uintBits ptr
          (newRemoteFromC nptr nname nurl w : Remote σ × Runtime).1 s = (0, s)
      ∧ remoteUpdateTips str a b (newRemoteFromC nptr nname nurl w : Remote σ × Runtime).1 s
          = (0, s)
      ∧ (∀ h, remoteProgress (text ++ rest) text.length
          { (newRemoteFromC nptr nname nurl w : Remote σ × Runtime).1 with Progress := some h } s
          = some (h text s))
      ∧ (∀ h, remoteProgress str length
          { ({ (newRemoteFromC nptr nname nurl w : Remote σ × Runtime).1 with
                Progress := some h } : Remote σ) with Progress := none } s
          = some (0, s))) := by
  have hbytes : GoBytes (text ++ rest) text.length = some text := by
    have hr : (0 : Int) ≤ (text.length : Int)
        ∧ (text.length : Int) ≤ ((text ++ rest).length : Int) := by
      constructor
      · exact Int.natCast_nonneg _
      · rw [List.length_append]
        push_cast
        omega
    simp [GoBytes, hr]
  have hstring : ∀ (l : CBuf), (∀ x ∈ l, x ≠ 0) → GoString (l ++ 0 :: tail) = l := by
    intro l
    unfold GoString
    induction l with
    | nil => simp
    | cons x t ih =>
      intro hl
      have hx : x ≠ 0 := hl x (List.mem_cons_self x t)
      have ht : ∀ y ∈ t, y ≠ 0 := fun y hy => hl y (List.mem_cons_of_mem x hy)
      simp [List.takeWhile_cons, hx, ih ht]
  have hsnap : newTransferProgressFromC uintBits ptr
      = { TotalObjects := ptr.total_objects, IndexedObjects := ptr.indexed_objects,
          ReceivedObjects := ptr.received_objects, ReceivedBytes := ptr.received_bytes } := by
    obtain ⟨h1, h2, h3, h4⟩ := hwf
    have hpow : 2 ^ 32 ≤ 2 ^ uintBits := by
      rcases hbits with hb | hb <;> subst hb <;> norm_num
    simp only [newTransferProgressFromC, toUint, toUint64,
      Nat.mod_eq_of_lt (lt_of_lt_of_le h1 hpow), Nat.mod_eq_of_lt (lt_of_lt_of_le h2 hpow),
      Nat.mod_eq_of_lt (lt_of_lt_of_le h3 hpow), Nat.mod_eq_of_lt h4]
  refine ⟨⟨?_, ?_, ?_, ?_, ?_, ?_⟩, ⟨?_, ?_, ?_⟩, ⟨rfl, rfl, rfl, ?_, ?_⟩⟩
  · intro h
    simp [remoteProgress, h]
  · intro h hh
    simp [remoteProgress, hh, hbytes]
  · intro h
    simp [remoteTransferProgress, h]
  · intro h hh
    rw [← hsnap]
    simp [remoteTransferProgress, hh]
  · intro h
    simp [remoteUpdateTips, h]
  · intro h hh
    simp [remoteUpdateTips, hh, CopyOid, hstring name hname]
  · intro h
    simp [remoteProgress, h]
  · intro h
    simp [remoteTransferProgress, h]
  · intro h
    simp [remoteUpdateTips, h]
  · intro h
    simp [remoteProgress, hbytes]
  · intro h
    rfl

/-- Witness for C4: on the sample session with handlers, each trampoline hands
its converted arguments to the handler once (one group of entries is added to
the empty log) and returns the handler's own result; on the session without
handlers the progress callback returns 0 and leaves the counter at 0. -/
theorem trampolines_forward_to_present_handler_witness :
    (∀ x ∈ ([109] : CBuf), x ≠ 0) ∧ ((32 : Nat) = 32 ∨ (32 : Nat) = 64) ∧ fullProgress.wf
    ∧ sampleRemote.Progress = none
    ∧ remoteProgress [104, 105, 33, 0] 2 sampleRemote 0 = some (0, 0)
    ∧ remoteProgress ([104, 105] ++ [33, 0]) 2 handlerRemote [] = some (-2, [[104, 105]])
    ∧ remoteTransferProgress 32 fullProgress handlerRemote []
        = (-5, [[4294967295, 0, 4294967295, 18446744073709551615]])
    ∧ remoteUpdateTips ([109] ++ 0 :: [7]) ⟨[1, 2]⟩ ⟨[3]⟩ handlerRemote []
        = (1, [[109], [1, 2], [3]]) :=
  ⟨by decide, Or.inl rfl, by decide, rfl,
    (trampolines_forward_to_present_handler sampleRemote sampleRemote 0 [104, 105, 33, 0]
      [104, 105] [33, 0] [109] [7] 2 32 fullProgress ⟨[1, 2]⟩ ⟨[3]⟩ 40 [111, 0] [117, 0]
      freshRuntime (by decide) (Or.inl rfl) (by decide)).1.1 rfl,
    (trampolines_forward_to_present_handler handlerRemote handlerRemote [] [104, 105, 33, 0]
      [104, 105] [33, 0] [109] [7] 2 32 fullProgress ⟨[1, 2]⟩ ⟨[3]⟩ 40 [111, 0] [117, 0]
      freshRuntime (by decide) (Or.inl rfl) (by decide)).1.2.1 _ rfl,
    (trampolines_forward_to_present_handler handlerRemote handlerRemote [] [104, 105, 33, 0]
      [104, 105] [33, 0] [109] [7] 2 32 fullProgress ⟨[1, 2]⟩ ⟨[3]⟩ 40 [111, 0] [117, 0]
      freshRuntime (by decide) (Or.inl rfl) (by decide)).1.2.2.2.1 _ rfl,
    (trampolines_forward_to_present_handler handlerRemote handlerRemote [] [104, 105, 33, 0]
      [104, 105] [33, 0] [109] [7] 2 32 fullProgress ⟨[1, 2]⟩ ⟨[3]⟩ 40 [111, 0] [117, 0]
      freshRuntime (by decide) (Or.inl rfl) (by decide)).1.2.2.2.2.2 _ rfl⟩

/-- C10: on every native record (32-bit counters, `size_t` of at most 64 bits)
and on both widths of Go `uint`, `newTransferProgressFromC` returns a snapshot
whose four fields equal the native fields, with no truncation or wrap-around;
two invocations on the same record give equal snapshots. -/
theorem newTransferProgressFromC_exact (uintBits : Nat) (ptr : git_transfer_progress)
    (hbits : uintBits = 32 ∨ uintBits = 64) (hwf : ptr.wf) :
    (newTransferProgressFromC uintBits ptr).TotalObjects = ptr.total_objects
    ∧ (newTransferProgressFromC uintBits ptr).IndexedObjects = ptr.indexed_objects
    ∧ (newTransferProgressFromC uintBits ptr).ReceivedObjects = ptr.received_objects
    ∧ (newTransferProgressFromC uintBits ptr).ReceivedBytes = ptr.received_bytes
    ∧ newTransferProgressFromC uintBits ptr = newTransferProgressFromC uintBits ptr := by
  obtain ⟨h1, h2, h3, h4⟩ := hwf
  have hpow : 2 ^ 32 ≤ 2 ^ uintBits := by
    rcases hbits with hb | hb <;> subst hb <;> norm_num
  refine ⟨?_, ?_, ?_, ?_, rfl⟩
  · exact Nat.mod_eq_of_lt (lt_of_lt_of_le h1 hpow)
  · exact Nat.mod_eq_of_lt (lt_of_lt_of_le h2 hpow)
  · exact Nat.mod_eq_of_lt (lt_of_lt_of_le h3 hpow)
  · exact Nat.mod_eq_of_lt h4

/-- Witness for C10: the largest counters and byte count, with a 32-bit `uint`. -/
theorem newTransferProgressFromC_exact_witness :
    ((32 : Nat) = 32 ∨ (32 : Nat) = 64) ∧ fullProgress.wf
    ∧ (newTransferProgressFromC 32 fullProgress).TotalObjects = 4294967295
    ∧ (newTransferProgressFromC 32 fullProgress).ReceivedBytes = 18446744073709551615 :=
  ⟨Or.inl rfl, by decide,
    (newTransferProgressFromC_exact 32 fullProgress (Or.inl rfl) (by decide)).1,
    (newTransferProgressFromC_exact 32 fullProgress (Or.inl rfl) (by decide)).2.2.2.1⟩

/-! ## Lemmas on the trace and the finalizer table -/

/-- The narrowing of the direction keeps the two enum values and wraps a Go
`int` outside the 32-bit range. -/
theorem git_direction_values :
    git_direction 0 = 0 ∧ git_direction 1 = 1 ∧ git_direction (2 ^ 32 + 1) = 1 := by
  refine ⟨?_, ?_, ?_⟩ <;> decide

theorem lookup_filter_ne (a : Nat) (l : List (Nat × Finalizer)) :
    (l.filter (fun e => e.1 != a)).lookup a = none := by
  rw [List.lookup_eq_none_iff]
  intro p hp
  have hne : p.1 ≠ a := by simpa using (List.mem_filter.mp hp).2
  simpa using fun h => hne h.symm

theorem SetFinalizer_none_lookup (a : Nat) (w : Runtime) :
    (SetFinalizer a none w).finalizers.lookup a = none := by
  simp [SetFinalizer, lookup_filter_ne]

theorem SetFinalizer_some_lookup (a : Nat) (f : Finalizer) (w : Runtime) :
    (SetFinalizer a (some f) w).finalizers.lookup a = some f := by
  simp [SetFinalizer, List.lookup]

theorem callCount_record (c d : NativeCall) (w : Runtime) :
    callCount c (w.record d) = callCount c w + (if d = c then 1 else 0) := by
  unfold callCount Runtime.record
  by_cases h : d = c <;> simp [List.filter_append, List.filter, h]

theorem callCount_SetFinalizer (c : NativeCall) (a : Nat) (f : Option Finalizer) (w : Runtime) :
    callCount c (SetFinalizer a f w) = callCount c w := by
  cases f <;> rfl

theorem Remote_Free_lookup {σ : Type} (r : Remote σ) (w : Runtime) :
    (r.Free w).finalizers.lookup r.addr = none := by
  simp [Remote.Free, Runtime.record, SetFinalizer_none_lookup]

theorem Credential_Free_lookup (c : Credential) (w : Runtime) :
    (c.Free w).finalizers.lookup c.addr = none := by
  simp [Credential.Free, Runtime.record, SetFinalizer_none_lookup]

theorem Remote_Free_callCount {σ : Type} (r : Remote σ) (w : Runtime) :
    callCount (NativeCall.git_remote_free r.ptr) (r.Free w)
      = callCount (NativeCall.git_remote_free r.ptr) w + 1 := by
  simp [Remote.Free, callCount_record, callCount_SetFinalizer]

theorem Credential_Free_callCount (c : Credential) (w : Runtime) :
    callCount (NativeCall.git_cred_free c.ptr.addr) (c.Free w)
      = callCount (NativeCall.git_cred_free c.ptr.addr) w + 1 := by
  simp [Credential.Free, callCount_record, callCount_SetFinalizer]

theorem Remote_Free_calls {σ : Type} (r : Remote σ) (w : Runtime) :
    (r.Free w).calls = w.calls ++ [⟨NativeCall.git_remote_free r.ptr, w.lockDepth⟩] := by
  cases w
  simp [Remote.Free, Runtime.record, SetFinalizer]

theorem Credential_Free_calls (c : Credential) (w : Runtime) :
    (c.Free w).calls = w.calls ++ [⟨NativeCall.git_cred_free c.ptr.addr, w.lockDepth⟩] := by
  cases w
  simp [Credential.Free, Runtime.record, SetFinalizer]

theorem Remote_Free_lockDepth {σ : Type} (r : Remote σ) (w : Runtime) :
    (r.Free w).lockDepth = w.lockDepth := rfl

theorem Credential_Free_lockDepth (c : Credential) (w : Runtime) :
    (c.Free w).lockDepth = w.lockDepth := rfl

/-! ## Theorems on release, errors and pinning -/

/-- C5 (counterexample): the credential made by `NewCredentialUserpass` for
"alice"/"secret" is released by its first `Free`, and a second `Free` invokes
the native release routine on the same handle again (two releases in the
trace); likewise for the session made by `newRemoteFromC` on handle 40. -/
theorem second_Free_releases_handle_again :
    (NewCredentialUserpass alice secret sampleCredReply freshRuntime).1
      = (some sampleCredential, none)
    ∧ callCount (NativeCall.git_cred_free 77)
        (sampleCredential.Free
          (NewCredentialUserpass alice secret sampleCredReply freshRuntime).2) = 1
    ∧ callCount (NativeCall.git_cred_free 77)
        (sampleCredential.Free (sampleCredential.Free
          (NewCredentialUserpass alice secret sampleCredReply freshRuntime).2)) = 2
    ∧ (newRemoteFromC 40 [111, 0] [117, 0] freshRuntime : Remote Nat × Runtime).1.ptr = 40
    ∧ callCount (NativeCall.git_remote_free 40)
        ((newRemoteFromC 40 [111, 0] [117, 0] freshRuntime : Remote Nat × Runtime).1.Free
          ((newRemoteFromC 40 [111, 0] [117, 0] freshRuntime : Remote Nat × Runtime).1.Free
            (newRemoteFromC 40 [111, 0] [117, 0] freshRuntime : Remote Nat × Runtime).2)) = 2 := by
  refine ⟨?_, ?_, ?_, ?_, ?_⟩ <;> decide

/-- C5 (amended): `Free` does not guard against later use.  For every
credential and every session, `Free` leaves no finalizer registered for the
object, a second `Free` invokes the native release routine once more on the
same handle (two releases added to the trace in total), and `Connect` on a
freed session passes the released handle to the native connect call. -/
theorem Free_does_not_guard_reuse {σ : Type} (c : Credential) (r : Remote σ) (w : Runtime)
    (direction : Int) (reply : EngineReply) :
    (c.Free w).finalizers.lookup c.addr = none
    ∧ (c.Free (c.Free w)).calls
        = w.calls ++ [⟨NativeCall.git_cred_free c.ptr.addr, w.lockDepth⟩,
            ⟨NativeCall.git_cred_free c.ptr.addr, w.lockDepth⟩]
    ∧ callCount (NativeCall.git_cred_free c.ptr.addr) (c.Free (c.Free w))
        = callCount (NativeCall.git_cred_free c.ptr.addr) w + 2
    ∧ (r.Free w).finalizers.lookup r.addr = none
    ∧ (r.Free (r.Free w)).calls
        = w.calls ++ [⟨NativeCall.git_remote_free r.ptr, w.lockDepth⟩,
            ⟨NativeCall.git_remote_free r.ptr, w.lockDepth⟩]
    ∧ callCount (NativeCall.git_remote_free r.ptr) (r.Free (r.Free w))
        = callCount (NativeCall.git_remote_free r.ptr) w + 2
    ∧ (r.Connect direction reply (r.Free w)).2.calls
        = w.calls ++ ⟨NativeCall.git_remote_free r.ptr, w.lockDepth⟩
            :: ⟨NativeCall.git_remote_connect r.ptr (git_direction direction), w.lockDepth + 1⟩
            :: (if reply.status < 0 then [⟨NativeCall.giterr_last, w.lockDepth + 1⟩] else []) := by
  refine ⟨Credential_Free_lookup c w, ?_, ?_, Remote_Free_lookup r w, ?_, ?_, ?_⟩
  · rw [Credential_Free_calls, Credential_Free_calls, Credential_Free_lockDepth]
    simp
  · rw [Credential_Free_callCount, Credential_Free_callCount]
  · rw [Remote_Free_calls, Remote_Free_calls, Remote_Free_lockDepth]
    simp
  · rw [Remote_Free_callCount, Remote_Free_callCount]
  · by_cases h : reply.status < 0 <;>
      simp [Remote.Connect, engineCall, LastError, LockOSThread, UnlockOSThread,
        Runtime.record, Remote.Free, SetFinalizer, h]

/-- C6: on a session just built by `newRemoteFromC` the finalizer is registered;
one call to `Remote.Free` clears the registration and adds exactly one native
free of the handle to the trace, so that a later garbage-collection pass over
the object changes nothing and the handle has been released once in total
(without the explicit call, the pass itself releases it once).  The same holds
for `Credential.Free` on a credential built by `newCredentialFromC`. -/
theorem Free_cancels_finalizer_and_releases_once {σ : Type} (ptr : Nat) (name url : CBuf)
    (cptr : git_cred) (w : Runtime) :
    ((newRemoteFromC ptr name url w : Remote σ × Runtime).2.finalizers.lookup
        (newRemoteFromC ptr name url w : Remote σ × Runtime).1.addr = some Finalizer.RemoteFree
      ∧ ((newRemoteFromC ptr name url w : Remote σ × Runtime).1.Free
          (newRemoteFromC ptr name url w : Remote σ × Runtime).2).finalizers.lookup
            (newRemoteFromC ptr name url w : Remote σ × Runtime).1.addr = none
      ∧ ((newRemoteFromC ptr name url w : Remote σ × Runtime).1.Free
          (newRemoteFromC ptr name url w : Remote σ × Runtime).2).calls
          = (newRemoteFromC ptr name url w : Remote σ × Runtime).2.calls
              ++ [⟨NativeCall.git_remote_free ptr, w.lockDepth⟩]
      ∧ collectRemote (newRemoteFromC ptr name url w : Remote σ × Runtime).1
          ((newRemoteFromC ptr name url w : Remote σ × Runtime).1.Free
            (newRemoteFromC ptr name url w : Remote σ × Runtime).2)
          = (newRemoteFromC ptr name url w : Remote σ × Runtime).1.Free
              (newRemoteFromC ptr name url w : Remote σ × Runtime).2
      ∧ callCount (NativeCall.git_remote_free ptr)
          (collectRemote (newRemoteFromC ptr name url w : Remote σ × Runtime).1
            ((newRemoteFromC ptr name url w : Remote σ × Runtime).1.Free
              (newRemoteFromC ptr name url w : Remote σ × Runtime).2))
          = callCount (NativeCall.git_remote_free ptr) w + 1
      ∧ callCount (NativeCall.git_remote_free ptr)
          (collectRemote (newRemoteFromC ptr name url w : Remote σ × Runtime).1
            (newRemoteFromC ptr name url w : Remote σ × Runtime).2)
          = callCount (NativeCall.git_remote_free ptr) w + 1)
    ∧ ((newCredentialFromC cptr w).2.finalizers.lookup (newCredentialFromC cptr w).1.addr
        = some Finalizer.CredentialFree
      ∧ ((newCredentialFromC cptr w).1.Free (newCredentialFromC cptr w).2).finalizers.lookup
          (newCredentialFromC cptr w).1.addr = none
      ∧ ((newCredentialFromC cptr w).1.Free (newCredentialFromC cptr w).2).calls
          = (newCredentialFromC cptr w).2.calls
              ++ [⟨NativeCall.git_cred_free cptr.addr, w.lockDepth⟩]
      ∧ collectCredential (newCredentialFromC cptr w).1
          ((newCredentialFromC cptr w).1.Free (newCredentialFromC cptr w).2)
          = (newCredentialFromC cptr w).1.Free (newCredentialFromC cptr w).2
      ∧ callCount (NativeCall.git_cred_free cptr.addr)
          (collectCredential (newCredentialFromC cptr w).1
            ((newCredentialFromC cptr w).1.Free (newCredentialFromC cptr w).2))
          = callCount (NativeCall.git_cred_free cptr.addr) w + 1
      ∧ callCount (NativeCall.git_cred_free cptr.addr)
          (collectCredential (newCredentialFromC cptr w).1 (newCredentialFromC cptr w).2)
          = callCount (NativeCall.git_cred_free cptr.addr) w + 1) := by
  constructor
  · generalize hrw : (newRemoteFromC ptr name url w : Remote σ × Runtime) = rw
    have hptr : rw.1.ptr = ptr := by rw [← hrw]; rfl
    have hdepth : rw.2.lockDepth = w.lockDepth := by rw [← hrw]; rfl
    have hreg : rw.2.finalizers.lookup rw.1.addr = some Finalizer.RemoteFree := by
      rw [← hrw]
      exact SetFinalizer_some_lookup _ _ _
    have hcount : callCount (NativeCall.git_remote_free ptr) rw.2
        = callCount (NativeCall.git_remote_free ptr) w := by
      rw [← hrw]
      simp [newRemoteFromC, alloc, callCount_SetFinalizer, callCount_record]
      rfl
    have hgc : collectRemote rw.1 (rw.1.Free rw.2) = rw.1.Free rw.2 := by
      simp [collectRemote, Remote_Free_lookup]
    refine ⟨hreg, Remote_Free_lookup _ _, ?_, hgc, ?_, ?_⟩
    · rw [Remote_Free_calls, hptr, hdepth]
    · rw [hgc, ← hptr, Remote_Free_callCount, hptr, hcount]
    · simp only [collectRemote, hreg]
      rw [← hptr, Remote_Free_callCount, callCount_SetFinalizer, hptr, hcount]
  · generalize hcw : newCredentialFromC cptr w = cw
    have hptr : cw.1.ptr = cptr := by rw [← hcw]; rfl
    have hdepth : cw.2.lockDepth = w.lockDepth := by rw [← hcw]; rfl
    have hreg : cw.2.finalizers.lookup cw.1.addr = some Finalizer.CredentialFree := by
      rw [← hcw]
      exact SetFinalizer_some_lookup _ _ _
    have hcount : callCount (NativeCall.git_cred_free cptr.addr) cw.2
        = callCount (NativeCall.git_cred_free cptr.addr) w := by
      rw [← hcw]
      simp [newCredentialFromC, alloc, callCount_SetFinalizer]
      rfl
    have hgc : collectCredential cw.1 (cw.1.Free cw.2) = cw.1.Free cw.2 := by
      simp [collectCredential, Credential_Free_lookup]
    refine ⟨hreg, Credential_Free_lookup _ _, ?_, hgc, ?_, ?_⟩
    · rw [Credential_Free_calls, hptr, hdepth]
    · rw [hgc, ← hptr, Credential_Free_callCount, hptr, hcount]
    · simp only [collectCredential, hreg]
      rw [← hptr, Credential_Free_callCount, callCount_SetFinalizer, hptr, hcount]

/-- C7: `Remote.Connect`, `Remote.Save`, `NewCredentialUserpass` and
`NewCredentialSshKeyfile` return a non-nil error iff the native status is
negative.  On failure the error is the engine's last-error value and the trace
shows the failing call immediately followed by the read of the last error; the
constructors then return a nil credential.  On success the error is nil and
the constructors return a credential whose `Type` is the native `credtype`. -/
theorem error_iff_negative_status {σ : Type} (r : Remote σ) (direction : Int)
    (reply : EngineReply) (user pass pub priv : Bytes) (creply : CredReply) (w : Runtime) :
    (((r.Connect direction reply w).1 ≠ none ↔ reply.status < 0)
      ∧ (reply.status < 0 →
          (r.Connect direction reply w).1 = some reply.lastError
          ∧ (r.Connect direction reply w).2.calls
              = w.calls ++ [⟨NativeCall.git_remote_connect r.ptr (git_direction direction), w.lockDepth + 1⟩,
                  ⟨NativeCall.giterr_last, w.lockDepth + 1⟩])
      ∧ (0 ≤ reply.status → (r.Connect direction reply w).1 = none))
    ∧ (((r.Save reply w).1 ≠ none ↔ reply.status < 0)
      ∧ (reply.status < 0 →
          (r.Save reply w).1 = some reply.lastError
          ∧ (r.Save reply w).2.calls
              = w.calls ++ [⟨NativeCall.git_remote_save r.ptr, w.lockDepth + 1⟩,
                  ⟨NativeCall.giterr_last, w.lockDepth + 1⟩])
      ∧ (0 ≤ reply.status → (r.Save reply w).1 = none))
    ∧ (((NewCredentialUserpass user pass creply w).1.2 ≠ none ↔ creply.status < 0)
      ∧ (creply.status < 0 →
          (NewCredentialUserpass user pass creply w).1 = (none, some creply.lastError)
          ∧ (NewCredentialUserpass user pass creply w).2.calls
              = w.calls ++ [⟨NativeCall.git_cred_userpass_plaintext_new (CString user)
                    (CString pass), w.lockDepth⟩,
                  ⟨NativeCall.giterr_last, w.lockDepth⟩])
      ∧ (0 ≤ creply.status →
          ∃ cred, (NewCredentialUserpass user pass creply w).1 = (some cred, none)
            ∧ cred.Type_ = creply.out.credtype ∧ cred.ptr = creply.out))
    ∧ (((NewCredentialSshKeyfile user pub priv pass creply w).1.2 ≠ none ↔ creply.status < 0)
      ∧ (creply.status < 0 →
          (NewCredentialSshKeyfile user pub priv pass creply w).1
            = (none, some creply.lastError)
          ∧ (NewCredentialSshKeyfile user pub priv pass creply w).2.calls
              = w.calls ++ [⟨NativeCall.git_cred_ssh_keyfile_passphrase_new (CString user)
                    (CString pub) (CString priv) (CString pass), w.lockDepth⟩,
                  ⟨NativeCall.giterr_last, w.lockDepth⟩])
      ∧ (0 ≤ creply.status →
          ∃ cred, (NewCredentialSshKeyfile user pub priv pass creply w).1 = (some cred, none)
            ∧ cred.Type_ = creply.out.credtype ∧ cred.ptr = creply.out)) := by
  refine ⟨⟨?_, ?_, ?_⟩, ⟨?_, ?_, ?_⟩, ⟨?_, ?_, ?_⟩, ⟨?_, ?_, ?_⟩⟩
  · by_cases h : reply.status < 0 <;>
      simp [Remote.Connect, engineCall, LastError, LockOSThread, UnlockOSThread,
        Runtime.record, h]
  · intro h
    simp [Remote.Connect, engineCall, LastError, LockOSThread, UnlockOSThread,
      Runtime.record, h]
  · intro h
    have h2 : ¬ reply.status < 0 := not_lt.mpr h
    simp [Remote.Connect, engineCall, h2]
  · by_cases h : reply.status < 0 <;>
      simp [Remote.Save, engineCall, LastError, LockOSThread, UnlockOSThread,
        Runtime.record, h]
  · intro h
    simp [Remote.Save, engineCall, LastError, LockOSThread, UnlockOSThread,
      Runtime.record, h]
  · intro h
    have h2 : ¬ reply.status < 0 := not_lt.mpr h
    simp [Remote.Save, engineCall, h2]
  · by_cases h : creply.status < 0 <;>
      simp [NewCredentialUserpass, engineCall, LastError, Runtime.record, h]
  · intro h
    simp [NewCredentialUserpass, engineCall, LastError, Runtime.record, h]
  · intro h
    have h2 : ¬ creply.status < 0 := not_lt.mpr h
    simp [NewCredentialUserpass, engineCall, newCredentialFromC, h2]
  · by_cases h : creply.status < 0 <;>
      simp [NewCredentialSshKeyfile, engineCall, LastError, Runtime.record, h]
  · intro h
    simp [NewCredentialSshKeyfile, engineCall, LastError, Runtime.record, h]
  · intro h
    have h2 : ¬ creply.status < 0 := not_lt.mpr h
    simp [NewCredentialSshKeyfile, engineCall, newCredentialFromC, h2]

/-- Witness for C7: a failing connect surfaces the engine's error, a connect
answered with a positive status succeeds, a refused credential is nil with the
error, and a created credential carries the native type. -/
theorem error_iff_negative_status_witness :
    (-1 : Int) < 0 ∧ (0 : Int) ≤ 4
    ∧ (sampleRemote.Connect 0 { status := -1, lastError := sampleError } freshRuntime).1
        = some sampleError
    ∧ (sampleRemote.Connect 0 { status := 4, lastError := sampleError } freshRuntime).1 = none
    ∧ (NewCredentialUserpass alice secret failedCredReply freshRuntime).1
        = (none, some sampleError)
    ∧ (∃ cred, (NewCredentialUserpass alice secret sampleCredReply freshRuntime).1
          = (some cred, none) ∧ cred.Type_ = 1 ∧ cred.ptr = ⟨77, 1⟩) :=
  ⟨by decide, by decide,
    ((error_iff_negative_status sampleRemote 0 { status := -1, lastError := sampleError }
      alice secret [] [] failedCredReply freshRuntime).1.2.1 (by decide)).1,
    (error_iff_negative_status sampleRemote 0 { status := 4, lastError := sampleError }
      alice secret [] [] failedCredReply freshRuntime).1.2.2 (by decide),
    ((error_iff_negative_status sampleRemote 0 { status := -1, lastError := sampleError }
      alice secret [] [] failedCredReply freshRuntime).2.2.1.2.1 (by decide)).1,
    (error_iff_negative_status sampleRemote 0 { status := -1, lastError := sampleError }
      alice secret [] [] sampleCredReply freshRuntime).2.2.1.2.2 (by decide)⟩

/-- C9: `Remote.Connect` and `Remote.Save` make their native call one level
deeper in the OS-thread pin than their caller (hence pinned), every native call
they make is made while pinned, and for every answer of the engine (success or
failure) the pin depth after the operation equals the depth before it. -/
theorem Connect_Save_pinned {σ : Type} (r : Remote σ) (direction : Int)
    (reply : EngineReply) (w : Runtime) :
    ((r.Connect direction reply w).2.lockDepth = w.lockDepth
      ∧ ∃ rest, (r.Connect direction reply w).2.calls
          = w.calls ++ ⟨NativeCall.git_remote_connect r.ptr (git_direction direction), w.lockDepth + 1⟩ :: rest
        ∧ ∀ e ∈ rest, 0 < e.pinDepth)
    ∧ ((r.Save reply w).2.lockDepth = w.lockDepth
      ∧ ∃ rest, (r.Save reply w).2.calls
          = w.calls ++ ⟨NativeCall.git_remote_save r.ptr, w.lockDepth + 1⟩ :: rest
        ∧ ∀ e ∈ rest, 0 < e.pinDepth) := by
  by_cases h : reply.status < 0
  · refine ⟨⟨?_, [⟨NativeCall.giterr_last, w.lockDepth + 1⟩], ?_, ?_⟩,
      ⟨?_, [⟨NativeCall.giterr_last, w.lockDepth + 1⟩], ?_, ?_⟩⟩ <;>
      simp [Remote.Connect, Remote.Save, engineCall, LastError, LockOSThread, UnlockOSThread,
        Runtime.record, h]
  · refine ⟨⟨?_, [], ?_, ?_⟩, ⟨?_, [], ?_, ?_⟩⟩ <;>
      simp [Remote.Connect, Remote.Save, engineCall, LockOSThread, UnlockOSThread,
        Runtime.record, h]

end Git
